import Mathlib

/-!
Shallow embedding of `src/system_audio_recorder.py` (class `RecorderGUI`).

The program monitors an audio stream block by block.  Each block's RMS level
drives a state machine: a loud block (RMS ≥ `START_RMS`) starts or continues a
segment; once a segment has started, every block is written to a temporary
file and appended to a bounded tail buffer (`deque(maxlen=...)`); a sustained
run of silent blocks (RMS < `SILENCE_RMS` for at least `SILENCE_TIME`
seconds) finalizes the segment, trimming the tail-buffer window off the end
of the captured bytes and saving the rest as a numbered output file.

Modelling conventions:
* RMS levels and timestamps are rationals (`ℚ`); each incoming block carries
  the value `rms(data)` would compute for it and the value `time.time()`
  returns while it is processed.
* File contents are tracked by byte length: every block written contributes
  exactly `BLOCK * CHANNELS * 2` bytes (`rec.record(BLOCK)` yields a
  `BLOCK × CHANNELS` float array, converted to 16-bit PCM in `_write_block`),
  and all properties of interest are about byte counts and header fields.
* The tail buffer stores the byte length of each buffered block, mirroring
  `deque` semantics (append drops the oldest element when full).
* GUI-only effects (labels, status strings, printing) are omitted.
-/

set_option maxRecDepth 8000

namespace SysAudioRec

/-- Constant `SAMPLE_RATE = 44100` from the source's parameter section. -/
def SAMPLE_RATE : ℕ := 44100

/-- Constant `CHANNELS = 2`. -/
def CHANNELS : ℕ := 2

/-- Constant `BLOCK = 2048` samples per captured block. -/
def BLOCK : ℕ := 2048

/-- Constant `START_RMS = 0.03`: RMS threshold that starts/continues a segment. -/
def START_RMS : ℚ := mkRat 3 100

/-- Constant `SILENCE_RMS = 0.006`: RMS threshold below which a block counts as silent. -/
def SILENCE_RMS : ℚ := mkRat 6 1000

/-- Constant `SILENCE_TIME = 20.0`: seconds of continuous silence that end a segment. -/
def SILENCE_TIME : ℚ := mkRat 20 1

/-- Capacity of the tail deque:
`deque(maxlen=int(SILENCE_TIME * SAMPLE_RATE / BLOCK) + 2)`;
`int(...)` truncates, which on positive values is floor division. -/
def TAIL_MAXLEN : ℕ := 20 * SAMPLE_RATE / BLOCK + 2

/-- Bytes contributed by one written block: `BLOCK` frames × `CHANNELS`
channels × 2 bytes per 16-bit sample (`pcm.tobytes()` in `_write_block`). -/
def blockBytes : ℕ := BLOCK * CHANNELS * 2

/-- One captured audio block, abstracted to the quantities the recorder reads
from it: its RMS `level`, the wall-clock time `t` at which it is processed,
and whether writing its bytes to the temporary file succeeds (`writeOk`;
the success-path semantics fixes it to `true`). -/
structure Block where
  level : ℚ
  t : ℚ
  writeOk : Bool
deriving DecidableEq, Repr

/-- One saved output file, as produced by `_trim_and_save` plus the filename
chosen in `_finalize_and_save`: the sequence number embedded in the name
(`song_{index:03d}_...`), its zero-padded rendering, the three WAV header
fields set on the writer, and the number of sample data bytes written. -/
structure SavedFile where
  seq : ℕ
  seqStr : String
  nchannels : ℕ
  sampwidth : ℕ
  framerate : ℕ
  dataLen : ℕ
deriving DecidableEq, Repr

/-- The mutable state of `RecorderGUI` that the recorder logic reads and
writes, plus `savedFiles`, which models the files accumulated in the save
directory by successive finalizes. `tempWav = some n` models an open
temporary WAV file holding `n` sample bytes; `none` models `self.temp_wav
= None`. `tailBuffer` lists the byte length of each block in the deque. -/
structure RecState where
  running : Bool
  songIndex : ℕ
  recording : Bool
  hasStartedSong : Bool
  silenceStart : Option ℚ
  startTime : Option ℚ
  tempWav : Option ℕ
  tailBuffer : List ℕ
  savedFiles : List SavedFile
deriving DecidableEq, Repr

/-- The state `__init__` establishes: not running, `song_index = 1`, no
segment, empty tail buffer, no temp file, and (initially) no saved files. -/
def initState : RecState :=
  { running := false, songIndex := 1, recording := false,
    hasStartedSong := false, silenceStart := none, startTime := none,
    tempWav := none, tailBuffer := [], savedFiles := [] }

/-- Model of `deque.append` with a `maxlen`: appending to a full deque drops the
oldest element, so the length never exceeds `maxlen`. -/
def dequeAppend (maxlen : ℕ) (buf : List ℕ) (x : ℕ) : List ℕ :=
  (buf ++ [x]).drop (buf.length + 1 - maxlen)

/-- Python's `f"{n:03d}"`: decimal digits of `n` left-padded with `'0'` to a
minimum width of 3. -/
def py03d (n : ℕ) : String :=
  String.mk (List.replicate (3 - (Nat.repr n).length) '0') ++ Nat.repr n

/-- Length of the Python slice `bytes[:-t]` applied to a byte string of
length `n`: for `t = 0` the stop index is `-0 = 0`, yielding the empty
string; for `t > 0` it keeps the first `n - t` bytes (clamped at 0). -/
def pySliceDropLast (n t : ℕ) : ℕ :=
  if t = 0 then 0 else n - t

/-- Model of `_trim_and_save(src, dst)`, at the byte-length level: read back
`framesLen` bytes from the temporary file, compute
`trim_bytes = len(tail_buffer) * BLOCK * CHANNELS * 2`, keep
`frames[:-trim_bytes]` when `trim_bytes < len(frames)` and all of `frames`
otherwise, and write the result to a fresh WAV file with the fixed header
fields.  `seq` is the `song_index` used for the destination filename. -/
def trim_and_save (tailLen framesLen seq : ℕ) : SavedFile :=
  let trim_bytes := tailLen * BLOCK * CHANNELS * 2
  let finalLen :=
    if trim_bytes < framesLen then pySliceDropLast framesLen trim_bytes
    else framesLen
  { seq := seq, seqStr := py03d seq, nchannels := CHANNELS, sampwidth := 2,
    framerate := SAMPLE_RATE, dataLen := finalLen }

/-- Model of `_reset_state`: clears all per-segment state.  `song_index`, `running`
and the saved files are untouched. -/
def resetState (s : RecState) : RecState :=
  { s with
      recording := false
      hasStartedSong := false
      silenceStart := none
      startTime := none
      tailBuffer := []
      tempWav := none }

/-- Model of `_start_new_song` at time `now`: marks a segment active, clears the
silence timer and the tail buffer, records the start time, and opens a
fresh (empty) temporary WAV file. -/
def startNewSong (s : RecState) (now : ℚ) : RecState :=
  { s with
      recording := true
      hasStartedSong := true
      silenceStart := none
      startTime := some now
      tailBuffer := []
      tempWav := some 0 }

/-- Model of `_write_block(data)` in the success case: appends the block's PCM bytes
to the open temporary file and a copy of the block to the tail deque. -/
def writeBlock (s : RecState) : RecState :=
  { s with
      tempWav := s.tempWav.map (· + blockBytes)
      tailBuffer := dequeAppend TAIL_MAXLEN s.tailBuffer blockBytes }

/-- Model of `_finalize_and_save`: if no temp file is open, just reset; otherwise
close the temp file, trim-and-save it under the current `song_index`,
increment the index, and reset the per-segment state. -/
def finalizeAndSave (s : RecState) : RecState :=
  match s.tempWav with
  | none => resetState s
  | some framesLen =>
      let f := trim_and_save s.tailBuffer.length framesLen s.songIndex
      resetState { s with
        savedFiles := s.savedFiles ++ [f]
        songIndex := s.songIndex + 1 }

/-- Model of `_finalize_if_needed`: finalize only when a segment has started. -/
def finalizeIfNeeded (s : RecState) : RecState :=
  if s.hasStartedSong then finalizeAndSave s else s

/-- One iteration of the `while self.running` body of `record_loop` for a
block `b`, in the success path (every `writeframes` call succeeds):
loud blocks start/continue a segment and clear the silence timer; quiet
blocks are ignored before the first segment, and afterwards are written and
drive the silence timer, finalizing once it has run for `SILENCE_TIME`. -/
def step (s : RecState) (b : Block) : RecState :=
  if START_RMS ≤ b.level then
    let s1 := if s.recording = false then startNewSong s b.t else s
    let s2 := writeBlock s1
    { s2 with silenceStart := none }
  else if s.hasStartedSong = false then s
  else
    let s1 := writeBlock s
    if b.level < SILENCE_RMS then
      match s1.silenceStart with
      | none => { s1 with silenceStart := some b.t }
      | some t0 =>
          if SILENCE_TIME ≤ b.t - t0 then finalizeAndSave s1 else s1
    else
      { s1 with silenceStart := none }

/-- Model of `toggle` (the start/stop button): when not running, reset per-segment
state and start the loop; when running, stop the loop and finalize any
in-flight segment. -/
def toggle (s : RecState) : RecState :=
  if s.running = false then
    { resetState s with running := true }
  else
    finalizeIfNeeded { s with running := false }

/-- External events driving the recorder: a button press, or the arrival of
one captured block (processed only while the loop is running). -/
inductive Event where
  | toggle : Event
  | block : Block → Event
deriving DecidableEq, Repr

/-- Apply one event. A block is processed by the loop body only while
`running` holds (`while self.running`). -/
def applyEvent (s : RecState) (e : Event) : RecState :=
  match e with
  | .toggle => toggle s
  | .block b => if s.running then step s b else s

/-- Run a list of events from a state. -/
def runEvents (s : RecState) (evs : List Event) : RecState :=
  evs.foldl applyEvent s

/-- Run a list of captured blocks through the recording loop. -/
def runBlocks (s : RecState) (bs : List Block) : RecState :=
  bs.foldl (fun s b => if s.running then step s b else s) s

/-- A state is reachable when some event sequence produces it from the
freshly constructed recorder. -/
def Reachable (s : RecState) : Prop :=
  ∃ evs : List Event, runEvents initState evs = s

/-- Model of `_write_block` including the failure case: `writeframes` is the
first statement that touches the file, so a failing write raises before any
state field changes; the raised exception carries the state unchanged. -/
def writeBlockE (s : RecState) (b : Block) : Except RecState RecState :=
  if b.writeOk then Except.ok (writeBlock s) else Except.error s

/-- One iteration of the `record_loop` body with fallible writes.  The
source wraps no statement in `try`/`except`, so a raised write error
propagates out of the iteration; the `Except.error` payload is the recorder
state at the moment of the raise. -/
def stepE (s : RecState) (b : Block) : Except RecState RecState :=
  if START_RMS ≤ b.level then
    let s1 := if s.recording = false then startNewSong s b.t else s
    match writeBlockE s1 b with
    | Except.error sf => Except.error sf
    | Except.ok s2 => Except.ok { s2 with silenceStart := none }
  else if s.hasStartedSong = false then Except.ok s
  else
    match writeBlockE s b with
    | Except.error sf => Except.error sf
    | Except.ok s1 =>
        Except.ok <|
          if b.level < SILENCE_RMS then
            match s1.silenceStart with
            | none => { s1 with silenceStart := some b.t }
            | some t0 =>
                if SILENCE_TIME ≤ b.t - t0 then finalizeAndSave s1 else s1
          else
            { s1 with silenceStart := none }

/-- Model of the `while self.running` loop of `record_loop` with fallible
writes: an uncaught exception aborts the loop at once — the remaining
blocks are never read and no recovery code runs. -/
def recordLoopE (s : RecState) : List Block → Except RecState RecState
  | [] => Except.ok s
  | b :: bs =>
      if s.running then
        match stepE s b with
        | Except.ok s1 => recordLoopE s1 bs
        | Except.error sf => Except.error sf
      else
        Except.ok s

/-- Event sequence used by the concrete witnesses: press start, then one
loud block (RMS 0.05 ≥ `START_RMS`) at time 0, which opens a segment. -/
def demoStart : List Event :=
  [Event.toggle, Event.block ⟨mkRat 5 100, mkRat 0 1, true⟩]

/-- The recorder state right after `demoStart`: running, one segment open,
one block (8192 bytes) written to the temp file and held in the tail
buffer. -/
def demoState : RecState :=
  runEvents initState demoStart

/-- Witness input for the silence-expiry claim: first silent block, at time
10. -/
def c3b0 : Block := ⟨mkRat 1 1000, mkRat 10 1, true⟩

/-- Witness input: one further silent block inside the grace period. -/
def c3mid : List Block := [⟨mkRat 1 1000, mkRat 20 1, true⟩]

/-- Witness input: the silent block at which the 20-second grace period is
first reached (time 30, silence started at time 10). -/
def c3bi : Block := ⟨mkRat 1 1000, mkRat 30 1, true⟩

/-- Witness input: a further silent block after the segment has ended. -/
def c3rest : List Block := [⟨mkRat 1 1000, mkRat 31 1, true⟩]

/-- Tail-buffer invariant: whenever a segment has started, the tail buffer
holds at least one block and the temporary file is open. -/
def TailInv (s : RecState) : Prop :=
  s.hasStartedSong = true → 1 ≤ s.tailBuffer.length ∧ s.tempWav.isSome = true

/-- Sequence-counter invariant: the saved files carry the sequence numbers
1, 2, ... in order with no gaps or repeats, the counter is one past the
number of saved files, and each file's name component is the zero-padded
rendering of its sequence number. -/
def SeqInv (s : RecState) : Prop :=
  s.savedFiles.map SavedFile.seq = List.range' 1 s.savedFiles.length
  ∧ s.songIndex = s.savedFiles.length + 1
  ∧ ∀ f ∈ s.savedFiles, f.seqStr = py03d f.seq

/-! Helper lemmas shared by the claim theorems. -/

/-- The two RMS thresholds are strictly ordered (hysteresis gap). -/
theorem silence_lt_start : SILENCE_RMS < START_RMS := by decide

/-- A level below the silence threshold is also below the start threshold. -/
theorem not_start_of_lt_silence {x : ℚ} (h : x < SILENCE_RMS) :
    ¬ START_RMS ≤ x :=
  fun hle => absurd (h.trans silence_lt_start) (not_lt.mpr hle)

/-- Length of a bounded-deque append: one more element, capped at `maxlen`. -/
theorem dequeAppend_length (M : ℕ) (buf : List ℕ) (x : ℕ) :
    (dequeAppend M buf x).length = min (buf.length + 1) M := by
  simp [dequeAppend]
  omega

@[simp] theorem resetState_running (s : RecState) :
    (resetState s).running = s.running := rfl

@[simp] theorem resetState_songIndex (s : RecState) :
    (resetState s).songIndex = s.songIndex := rfl

@[simp] theorem resetState_savedFiles (s : RecState) :
    (resetState s).savedFiles = s.savedFiles := rfl

@[simp] theorem resetState_recording (s : RecState) :
    (resetState s).recording = false := rfl

@[simp] theorem resetState_hasStartedSong (s : RecState) :
    (resetState s).hasStartedSong = false := rfl

@[simp] theorem resetState_silenceStart (s : RecState) :
    (resetState s).silenceStart = none := rfl

@[simp] theorem resetState_tempWav (s : RecState) :
    (resetState s).tempWav = none := rfl

@[simp] theorem resetState_tailBuffer (s : RecState) :
    (resetState s).tailBuffer = [] := rfl

@[simp] theorem startNewSong_running (s : RecState) (now : ℚ) :
    (startNewSong s now).running = s.running := rfl

@[simp] theorem startNewSong_songIndex (s : RecState) (now : ℚ) :
    (startNewSong s now).songIndex = s.songIndex := rfl

@[simp] theorem startNewSong_savedFiles (s : RecState) (now : ℚ) :
    (startNewSong s now).savedFiles = s.savedFiles := rfl

@[simp] theorem startNewSong_recording (s : RecState) (now : ℚ) :
    (startNewSong s now).recording = true := rfl

@[simp] theorem startNewSong_hasStartedSong (s : RecState) (now : ℚ) :
    (startNewSong s now).hasStartedSong = true := rfl

@[simp] theorem startNewSong_silenceStart (s : RecState) (now : ℚ) :
    (startNewSong s now).silenceStart = none := rfl

@[simp] theorem startNewSong_tempWav (s : RecState) (now : ℚ) :
    (startNewSong s now).tempWav = some 0 := rfl

@[simp] theorem startNewSong_tailBuffer (s : RecState) (now : ℚ) :
    (startNewSong s now).tailBuffer = [] := rfl

@[simp] theorem writeBlock_running (s : RecState) :
    (writeBlock s).running = s.running := rfl

@[simp] theorem writeBlock_songIndex (s : RecState) :
    (writeBlock s).songIndex = s.songIndex := rfl

@[simp] theorem writeBlock_savedFiles (s : RecState) :
    (writeBlock s).savedFiles = s.savedFiles := rfl

@[simp] theorem writeBlock_recording (s : RecState) :
    (writeBlock s).recording = s.recording := rfl

@[simp] theorem writeBlock_hasStartedSong (s : RecState) :
    (writeBlock s).hasStartedSong = s.hasStartedSong := rfl

@[simp] theorem writeBlock_silenceStart (s : RecState) :
    (writeBlock s).silenceStart = s.silenceStart := rfl

@[simp] theorem writeBlock_tempWav (s : RecState) :
    (writeBlock s).tempWav = s.tempWav.map (· + blockBytes) := rfl

@[simp] theorem writeBlock_tailBuffer (s : RecState) :
    (writeBlock s).tailBuffer
      = dequeAppend TAIL_MAXLEN s.tailBuffer blockBytes := rfl

@[simp] theorem finalizeAndSave_running (s : RecState) :
    (finalizeAndSave s).running = s.running := by
  unfold finalizeAndSave
  split <;> rfl

@[simp] theorem finalizeAndSave_recording (s : RecState) :
    (finalizeAndSave s).recording = false := by
  unfold finalizeAndSave
  split <;> rfl

@[simp] theorem finalizeAndSave_hasStartedSong (s : RecState) :
    (finalizeAndSave s).hasStartedSong = false := by
  unfold finalizeAndSave
  split <;> rfl

@[simp] theorem finalizeAndSave_silenceStart (s : RecState) :
    (finalizeAndSave s).silenceStart = none := by
  unfold finalizeAndSave
  split <;> rfl

@[simp] theorem finalizeAndSave_tempWav (s : RecState) :
    (finalizeAndSave s).tempWav = none := by
  unfold finalizeAndSave
  split <;> rfl

/-- Saved files after a finalize with an open temp file of `n` bytes. -/
theorem finalizeAndSave_savedFiles (s : RecState) (n : ℕ)
    (h : s.tempWav = some n) :
    (finalizeAndSave s).savedFiles
      = s.savedFiles
        ++ [trim_and_save s.tailBuffer.length n s.songIndex] := by
  unfold finalizeAndSave
  rw [h]
  rfl

/-- Sequence counter after a finalize with an open temp file. -/
theorem finalizeAndSave_songIndex (s : RecState) (n : ℕ)
    (h : s.tempWav = some n) :
    (finalizeAndSave s).songIndex = s.songIndex + 1 := by
  unfold finalizeAndSave
  rw [h]
  rfl

/-! Characterizations of one loop iteration, one per branch of the source's
`record_loop` body. -/

/-- Loud block, no active segment: open a new session and write. -/
theorem step_loud_new (s : RecState) (b : Block)
    (hl : START_RMS ≤ b.level) (hr : s.recording = false) :
    step s b = { writeBlock (startNewSong s b.t) with silenceStart := none } := by
  simp [step, hl, hr]

/-- Loud block during a segment: write and clear the silence timer. -/
theorem step_loud_cont (s : RecState) (b : Block)
    (hl : START_RMS ≤ b.level) (hr : s.recording = true) :
    step s b = { writeBlock s with silenceStart := none } := by
  simp [step, hl, hr]

/-- Quiet block before any segment: ignored entirely. -/
theorem step_idle (s : RecState) (b : Block)
    (hl : ¬ START_RMS ≤ b.level) (hst : s.hasStartedSong = false) :
    step s b = s := by
  simp [step, hl, hst]

/-- In-between block (neither loud nor silent) during a segment: write and
clear the silence timer. -/
theorem step_between (s : RecState) (b : Block)
    (hl : ¬ START_RMS ≤ b.level) (hst : s.hasStartedSong = true)
    (hq : ¬ b.level < SILENCE_RMS) :
    step s b = { writeBlock s with silenceStart := none } := by
  simp [step, hl, hst, hq]

/-- First silent block of a quiet stretch: write and start the timer. -/
theorem step_silent_first (s : RecState) (b : Block)
    (hst : s.hasStartedSong = true) (hq : b.level < SILENCE_RMS)
    (hss : s.silenceStart = none) :
    step s b = { writeBlock s with silenceStart := some b.t } := by
  simp [step, not_start_of_lt_silence hq, hst, hq, hss]

/-- Silent block within the grace period: write, timer keeps running. -/
theorem step_silent_hold (s : RecState) (b : Block) (t0 : ℚ)
    (hst : s.hasStartedSong = true) (hq : b.level < SILENCE_RMS)
    (hss : s.silenceStart = some t0) (ht : ¬ SILENCE_TIME ≤ b.t - t0) :
    step s b = writeBlock s := by
  simp [step, not_start_of_lt_silence hq, hst, hq, hss, ht]

/-- Silent block at or past the grace period: write, then finalize. -/
theorem step_silent_expire (s : RecState) (b : Block) (t0 : ℚ)
    (hst : s.hasStartedSong = true) (hq : b.level < SILENCE_RMS)
    (hss : s.silenceStart = some t0) (ht : SILENCE_TIME ≤ b.t - t0) :
    step s b = finalizeAndSave (writeBlock s) := by
  simp [step, not_start_of_lt_silence hq, hst, hq, hss, ht]

/-- Running is only changed by `toggle`, never by the loop body. -/
theorem step_running (s : RecState) (b : Block) :
    (step s b).running = s.running := by
  by_cases hl : START_RMS ≤ b.level
  · by_cases hr : s.recording = false
    · rw [step_loud_new s b hl hr]
      rfl
    · rw [step_loud_cont s b hl (by simpa using hr)]
      rfl
  · by_cases hst : s.hasStartedSong = false
    · rw [step_idle s b hl hst]
    · replace hst : s.hasStartedSong = true := by simpa using hst
      by_cases hq : b.level < SILENCE_RMS
      · rcases hss : s.silenceStart with _ | t0
        · rw [step_silent_first s b hst hq hss]
          rfl
        · by_cases ht : SILENCE_TIME ≤ b.t - t0
          · rw [step_silent_expire s b t0 hst hq hss ht]
            simp
          · rw [step_silent_hold s b t0 hst hq hss ht]
            rfl
      · rw [step_between s b hl hst hq]
        rfl

theorem tailInv_init : TailInv initState := by
  intro h
  simp [initState] at h

/-- A write keeps the buffer nonempty and the temp file open. -/
theorem tailInv_writeBlock_len (s : RecState) :
    1 ≤ (writeBlock s).tailBuffer.length := by
  rw [writeBlock_tailBuffer, dequeAppend_length]
  simp [TAIL_MAXLEN, SAMPLE_RATE, BLOCK]

theorem tailInv_step (s : RecState) (b : Block) (h : TailInv s) :
    TailInv (step s b) := by
  by_cases hl : START_RMS ≤ b.level
  · by_cases hr : s.recording = false
    · rw [step_loud_new s b hl hr]
      intro _
      refine ⟨tailInv_writeBlock_len _, ?_⟩
      simp [startNewSong]
    · rw [step_loud_cont s b hl (by simpa using hr)]
      intro hs
      simp only [writeBlock_hasStartedSong] at hs
      refine ⟨tailInv_writeBlock_len _, ?_⟩
      simp only [writeBlock_tempWav, Option.isSome_map']
      exact (h hs).2
  · by_cases hst : s.hasStartedSong = false
    · rw [step_idle s b hl hst]
      exact h
    · replace hst : s.hasStartedSong = true := by simpa using hst
      by_cases hq : b.level < SILENCE_RMS
      · rcases hss : s.silenceStart with _ | t0
        · rw [step_silent_first s b hst hq hss]
          intro _
          refine ⟨tailInv_writeBlock_len _, ?_⟩
          simp only [writeBlock_tempWav, Option.isSome_map']
          exact (h hst).2
        · by_cases ht : SILENCE_TIME ≤ b.t - t0
          · rw [step_silent_expire s b t0 hst hq hss ht]
            intro hs
            rw [finalizeAndSave_hasStartedSong] at hs
            exact absurd hs (by simp)
          · rw [step_silent_hold s b t0 hst hq hss ht]
            intro _
            refine ⟨tailInv_writeBlock_len _, ?_⟩
            simp only [writeBlock_tempWav, Option.isSome_map']
            exact (h hst).2
      · rw [step_between s b hl hst hq]
        intro _
        refine ⟨tailInv_writeBlock_len _, ?_⟩
        simp only [writeBlock_tempWav, Option.isSome_map']
        exact (h hst).2

theorem tailInv_toggle (s : RecState) (h : TailInv s) :
    TailInv (toggle s) := by
  unfold toggle
  split
  · intro hs
    simp at hs
  · unfold finalizeIfNeeded
    split
    · intro hs
      rw [finalizeAndSave_hasStartedSong] at hs
      exact absurd hs (by simp)
    · intro hs
      simp only at hs
      exact h hs

theorem tailInv_applyEvent (s : RecState) (e : Event) (h : TailInv s) :
    TailInv (applyEvent s e) := by
  cases e with
  | toggle =>
      show TailInv (toggle s)
      exact tailInv_toggle s h
  | block b =>
      show TailInv (if s.running = true then step s b else s)
      by_cases hr : s.running = true
      · rw [if_pos hr]
        exact tailInv_step s b h
      · rw [if_neg hr]
        exact h

theorem tailInv_runEvents (evs : List Event) :
    ∀ s : RecState, TailInv s → TailInv (runEvents s evs) := by
  induction evs with
  | nil => intro s h; exact h
  | cons e rest ih =>
      intro s h
      exact ih (applyEvent s e) (tailInv_applyEvent s e h)

/-- C10 (implicit invariant): at every reachable state with an active
segment — in particular at the point where either finalize path runs — the
tail buffer holds at least one block and the temp file is open, so the
computed trim amount is at least one block's worth of bytes and the
zero-trim slice `frames[:-0]` (which `pySliceDropLast` shows would yield an
empty file) is never taken. -/
theorem C10_tail_nonempty (s : RecState) (h : Reachable s)
    (hs : s.hasStartedSong = true) :
    1 ≤ s.tailBuffer.length ∧ s.tempWav.isSome = true
    ∧ blockBytes ≤ s.tailBuffer.length * BLOCK * CHANNELS * 2 := by
  obtain ⟨evs, hevs⟩ := h
  have hinv : TailInv s := hevs ▸ tailInv_runEvents evs initState tailInv_init
  obtain ⟨h1, h2⟩ := hinv hs
  refine ⟨h1, h2, ?_⟩
  simp only [blockBytes, BLOCK, CHANNELS]
  omega

/-- Witness for C10 at the state reached by `demoStart`. -/
theorem C10_tail_nonempty_witness :
    1 ≤ demoState.tailBuffer.length ∧ demoState.tempWav.isSome = true
    ∧ blockBytes ≤ demoState.tailBuffer.length * BLOCK * CHANNELS * 2 :=
  C10_tail_nonempty demoState ⟨demoStart, rfl⟩ (by decide)

/-- A positive tail-buffer occupancy makes the computed trim amount
positive. -/
theorem trimBytes_ne_zero (tailLen : ℕ) (h : 1 ≤ tailLen) :
    tailLen * BLOCK * CHANNELS * 2 ≠ 0 := by
  simp [BLOCK, CHANNELS]
  omega

/-- C2: at finalize, `trimBytes = tailBufferBlockCount × blockSampleCount ×
channelCount × bytesPerSample`, and the last `trimBytes` bytes of the
captured data are dropped exactly when `trimBytes < totalBytes`; otherwise
all captured bytes are kept (the degenerate short-segment case applies no
trimming).  The hypothesis `1 ≤ tailLen` holds at every reachable finalize
(see the tail-buffer invariant proved for C10). -/
theorem C2_trim_rule (tailLen framesLen seq : ℕ) (h : 1 ≤ tailLen) :
    (trim_and_save tailLen framesLen seq).dataLen =
      if tailLen * BLOCK * CHANNELS * 2 < framesLen
      then framesLen - tailLen * BLOCK * CHANNELS * 2
      else framesLen := by
  have hne := trimBytes_ne_zero tailLen h
  simp only [trim_and_save, pySliceDropLast]
  split
  · simp [hne]
  · rfl

/-- Witness for C2 at `tailLen = 1`, `framesLen = 10000`, `seq = 1`. -/
theorem C2_trim_rule_witness :
    1 ≤ (1 : ℕ) ∧
      (trim_and_save 1 10000 1).dataLen =
        if 1 * BLOCK * CHANNELS * 2 < 10000
        then 10000 - 1 * BLOCK * CHANNELS * 2
        else 10000 :=
  ⟨by decide, C2_trim_rule 1 10000 1 (by decide)⟩

/-- C1 counterexample: a run consisting of start, one loud block and a stop
produces a finalized segment whose captured bytes (8192, the temp file's
content) exactly equal the tail-window bytes (1 buffered block × 8192), yet
the saved file holds all 8192 sample bytes, not
`capturedBytes − min(tailWindowBytes, capturedBytes) = 0` as the claim
demands. -/
theorem C1_counterexample :
    demoState.tempWav = some 8192
    ∧ demoState.tailBuffer.length * BLOCK * CHANNELS * 2 = 8192
    ∧ (runEvents initState (demoStart ++ [Event.toggle])).savedFiles
        = [⟨1, "001", 2, 2, 44100, 8192⟩]
    ∧ (8192 : ℕ) ≠ 8192 - min 8192 8192 := by
  decide

/-- C1 as amended: for a finalize with a nonempty tail buffer (true of every
reachable finalize, per the C10 invariant), the saved file's sample-byte
length equals `capturedBytes − min(tailWindowBytes, capturedBytes)` whenever
`tailWindowBytes < capturedBytes`, and equals `capturedBytes` (nothing
trimmed) otherwise; in both cases the container header carries the correct
channel count, sample width and sample rate. -/
theorem C1_trim_correctness (tailLen framesLen seq : ℕ) (h : 1 ≤ tailLen) :
    ((tailLen * BLOCK * CHANNELS * 2 < framesLen →
        (trim_and_save tailLen framesLen seq).dataLen
          = framesLen - min (tailLen * BLOCK * CHANNELS * 2) framesLen)
      ∧ (framesLen ≤ tailLen * BLOCK * CHANNELS * 2 →
        (trim_and_save tailLen framesLen seq).dataLen = framesLen))
    ∧ (trim_and_save tailLen framesLen seq).nchannels = CHANNELS
    ∧ (trim_and_save tailLen framesLen seq).sampwidth = 2
    ∧ (trim_and_save tailLen framesLen seq).framerate = SAMPLE_RATE := by
  have hne := trimBytes_ne_zero tailLen h
  refine ⟨⟨fun hlt => ?_, fun hge => ?_⟩, rfl, rfl, rfl⟩
  · rw [C2_trim_rule tailLen framesLen seq h]
    rw [if_pos hlt, min_eq_left (le_of_lt hlt)]
  · rw [C2_trim_rule tailLen framesLen seq h]
    rw [if_neg (by omega)]

/-- Witness for the amended C1 at `tailLen = 1`, `framesLen = 8192`. -/
theorem C1_trim_correctness_witness :
    1 ≤ (1 : ℕ) ∧
      ((1 * BLOCK * CHANNELS * 2 < 8192 →
          (trim_and_save 1 8192 1).dataLen
            = 8192 - min (1 * BLOCK * CHANNELS * 2) 8192)
        ∧ (8192 ≤ 1 * BLOCK * CHANNELS * 2 →
          (trim_and_save 1 8192 1).dataLen = 8192))
      ∧ (trim_and_save 1 8192 1).nchannels = CHANNELS
      ∧ (trim_and_save 1 8192 1).sampwidth = 2
      ∧ (trim_and_save 1 8192 1).framerate = SAMPLE_RATE :=
  ⟨by decide, C1_trim_correctness 1 8192 1 (by decide)⟩

/-- C4: a block with RMS ≥ `START_RMS` arriving with no active segment opens
a new session: the machine enters RECORDING (`recording`/`hasStartedSong`
set), the tail buffer is cleared and then holds exactly this block, and the
fresh temp file holds exactly this block's bytes — it is the first block
written to the new segment. -/
theorem C4_segment_start (s : RecState) (b : Block)
    (hrec : s.recording = false) (hlev : START_RMS ≤ b.level) :
    step s b =
      { s with
        recording := true
        hasStartedSong := true
        silenceStart := none
        startTime := some b.t
        tempWav := some blockBytes
        tailBuffer := [blockBytes] } := by
  simp [step, hlev, hrec, startNewSong, writeBlock, dequeAppend,
    TAIL_MAXLEN, SAMPLE_RATE, BLOCK, CHANNELS, blockBytes]

/-- Witness for C4: the first loud block after pressing start. -/
theorem C4_segment_start_witness :
    (runEvents initState [Event.toggle]).recording = false
    ∧ START_RMS ≤ (mkRat 5 100)
    ∧ step (runEvents initState [Event.toggle]) ⟨mkRat 5 100, mkRat 0 1, true⟩ =
        { runEvents initState [Event.toggle] with
          recording := true
          hasStartedSong := true
          silenceStart := none
          startTime := some (mkRat 0 1)
          tempWav := some blockBytes
          tailBuffer := [blockBytes] } :=
  ⟨by decide, by decide,
    C4_segment_start (runEvents initState [Event.toggle])
      ⟨mkRat 5 100, mkRat 0 1, true⟩ (by decide) (by decide)⟩

/-- C6: a stop request while a segment is active finalizes that segment
exactly once before monitoring ends — the saved file is produced by the
same `trim_and_save` rule as a natural silence expiry — and leaves the
machine IDLE with no in-flight segment. -/
theorem C6_stop_finalizes (s : RecState) (n : ℕ)
    (hrun : s.running = true) (hstart : s.hasStartedSong = true)
    (htemp : s.tempWav = some n) :
    (toggle s).savedFiles
        = s.savedFiles ++ [trim_and_save s.tailBuffer.length n s.songIndex]
    ∧ (toggle s).songIndex = s.songIndex + 1
    ∧ (toggle s).running = false
    ∧ (toggle s).recording = false
    ∧ (toggle s).hasStartedSong = false
    ∧ (toggle s).tempWav = none := by
  simp [toggle, finalizeIfNeeded, finalizeAndSave, resetState,
    hrun, hstart, htemp]

/-- Witness for C6: stopping right after `demoStart`. -/
theorem C6_stop_finalizes_witness :
    demoState.running = true ∧ demoState.hasStartedSong = true
    ∧ demoState.tempWav = some 8192
    ∧ ((toggle demoState).savedFiles
          = demoState.savedFiles
            ++ [trim_and_save demoState.tailBuffer.length 8192
                  demoState.songIndex]
        ∧ (toggle demoState).songIndex = demoState.songIndex + 1
        ∧ (toggle demoState).running = false
        ∧ (toggle demoState).recording = false
        ∧ (toggle demoState).hasStartedSong = false
        ∧ (toggle demoState).tempWav = none) :=
  ⟨by decide, by decide, by decide,
    C6_stop_finalizes demoState 8192 (by decide) (by decide) (by decide)⟩

/-- C7: a stop request while IDLE (no segment ever started in this run) only
stops the loop: no finalize, no output file, no sequence-counter change —
every other state field is untouched. -/
theorem C7_stop_idle_noop (s : RecState)
    (hrun : s.running = true) (hstart : s.hasStartedSong = false) :
    toggle s = { s with running := false } := by
  simp [toggle, finalizeIfNeeded, hrun, hstart]

/-- Witness for C7: stopping immediately after pressing start. -/
theorem C7_stop_idle_noop_witness :
    (runEvents initState [Event.toggle]).running = true
    ∧ (runEvents initState [Event.toggle]).hasStartedSong = false
    ∧ toggle (runEvents initState [Event.toggle]) =
        { runEvents initState [Event.toggle] with running := false } :=
  ⟨by decide, by decide,
    C7_stop_idle_noop (runEvents initState [Event.toggle])
      (by decide) (by decide)⟩

/-! Sequence-counter invariant machinery for C8. -/

theorem seqInv_init : SeqInv initState := by
  refine ⟨rfl, rfl, ?_⟩
  intro f hf
  simp [initState] at hf

/-- States with the same saved files and counter satisfy `SeqInv` together. -/
theorem seqInv_of_eq (s s' : RecState) (h : SeqInv s)
    (h1 : s'.savedFiles = s.savedFiles) (h2 : s'.songIndex = s.songIndex) :
    SeqInv s' := by
  unfold SeqInv at h ⊢
  rw [h1, h2]
  exact h

theorem seqInv_finalizeAndSave (s : RecState) (h : SeqInv s) :
    SeqInv (finalizeAndSave s) := by
  rcases htw : s.tempWav with _ | n
  · refine seqInv_of_eq s _ h ?_ ?_ <;>
      (unfold finalizeAndSave; rw [htw]; rfl)
  · obtain ⟨h1, h2, h3⟩ := h
    have hsv := finalizeAndSave_savedFiles s n htw
    have hsi := finalizeAndSave_songIndex s n htw
    refine ⟨?_, ?_, ?_⟩
    · rw [hsv, List.map_append, h1, List.length_append]
      have hseq : (trim_and_save s.tailBuffer.length n s.songIndex).seq
          = s.songIndex := rfl
      simp only [List.map_cons, List.map_nil, hseq, h2, List.length_cons,
        List.length_nil]
      rw [List.range'_concat]
      have : 1 + 1 * s.savedFiles.length = s.savedFiles.length + 1 := by omega
      rw [this]
      rfl
    · rw [hsv, hsi, h2, List.length_append]
      simp
    · intro f hf
      rw [hsv] at hf
      rcases List.mem_append.mp hf with hfl | hfr
      · exact h3 f hfl
      · have : f = trim_and_save s.tailBuffer.length n s.songIndex := by
          simpa using hfr
        subst this
        rfl

theorem seqInv_step (s : RecState) (b : Block) (h : SeqInv s) :
    SeqInv (step s b) := by
  by_cases hl : START_RMS ≤ b.level
  · by_cases hr : s.recording = false
    · rw [step_loud_new s b hl hr]
      exact seqInv_of_eq s _ h (by simp) (by simp)
    · rw [step_loud_cont s b hl (by simpa using hr)]
      exact seqInv_of_eq s _ h (by simp) (by simp)
  · by_cases hst : s.hasStartedSong = false
    · rw [step_idle s b hl hst]
      exact h
    · replace hst : s.hasStartedSong = true := by simpa using hst
      by_cases hq : b.level < SILENCE_RMS
      · rcases hss : s.silenceStart with _ | t0
        · rw [step_silent_first s b hst hq hss]
          exact seqInv_of_eq s _ h (by simp) (by simp)
        · by_cases ht : SILENCE_TIME ≤ b.t - t0
          · rw [step_silent_expire s b t0 hst hq hss ht]
            exact seqInv_finalizeAndSave _
              (seqInv_of_eq s _ h (by simp) (by simp))
          · rw [step_silent_hold s b t0 hst hq hss ht]
            exact seqInv_of_eq s _ h (by simp) (by simp)
      · rw [step_between s b hl hst hq]
        exact seqInv_of_eq s _ h (by simp) (by simp)

theorem seqInv_toggle (s : RecState) (h : SeqInv s) :
    SeqInv (toggle s) := by
  unfold toggle
  split
  · exact seqInv_of_eq s _ h (by simp) (by simp)
  · unfold finalizeIfNeeded
    split
    · exact seqInv_finalizeAndSave _ (seqInv_of_eq s _ h (by simp) (by simp))
    · exact seqInv_of_eq s _ h (by simp) (by simp)

theorem seqInv_applyEvent (s : RecState) (e : Event) (h : SeqInv s) :
    SeqInv (applyEvent s e) := by
  cases e with
  | toggle =>
      show SeqInv (toggle s)
      exact seqInv_toggle s h
  | block b =>
      show SeqInv (if s.running = true then step s b else s)
      by_cases hr : s.running = true
      · rw [if_pos hr]
        exact seqInv_step s b h
      · rw [if_neg hr]
        exact h

theorem seqInv_runEvents (evs : List Event) :
    ∀ s : RecState, SeqInv s → SeqInv (runEvents s evs) := by
  induction evs with
  | nil => intro s h; exact h
  | cons e rest ih =>
      intro s h
      exact ih (applyEvent s e) (seqInv_applyEvent s e h)

/-- Decimal rendering of a number below 1000 takes between 1 and 3 digits. -/
theorem repr_length_le (k : ℕ) (hk : k < 1000) :
    1 ≤ (Nat.repr k).length ∧ (Nat.repr k).length ≤ 3 := by
  revert hk
  revert k
  decide

/-- Numbers up to 999 render as exactly three characters under `%03d`. -/
theorem py03d_length (k : ℕ) (hk : k ≤ 999) : (py03d k).length = 3 := by
  obtain ⟨h1, h2⟩ := repr_length_le k (by omega)
  unfold py03d
  rw [String.length_append, String.length_mk, List.length_replicate]
  omega

/-- C8: at every reachable state, the saved files carry sequence numbers
exactly `1..N` (`N` = number of files saved so far) in order with no gaps or
repeats; the counter starts at 1, sits one past the saved count (so it is
incremented exactly once per save and never reset by a segment end, a stop,
or a restart of monitoring); and each file's name embeds the zero-padded
sequence field, which is exactly 3 digits whenever the number is ≤ 999. -/
theorem C8_sequence_numbers (s : RecState) (h : Reachable s) :
    s.savedFiles.map SavedFile.seq = List.range' 1 s.savedFiles.length
    ∧ s.songIndex = s.savedFiles.length + 1
    ∧ ∀ f ∈ s.savedFiles,
        f.seqStr = py03d f.seq ∧ (f.seq ≤ 999 → f.seqStr.length = 3) := by
  obtain ⟨evs, hevs⟩ := h
  have hinv : SeqInv s := hevs ▸ seqInv_runEvents evs initState seqInv_init
  obtain ⟨h1, h2, h3⟩ := hinv
  refine ⟨h1, h2, fun f hf => ⟨h3 f hf, fun hle => ?_⟩⟩
  rw [h3 f hf]
  exact py03d_length f.seq hle

/-- Witness for C8 after one complete segment (start, loud block, stop). -/
theorem C8_sequence_numbers_witness :
    (runEvents initState (demoStart ++ [Event.toggle])).savedFiles.map
        SavedFile.seq
      = List.range' 1
          (runEvents initState (demoStart ++ [Event.toggle])).savedFiles.length
    ∧ (runEvents initState (demoStart ++ [Event.toggle])).songIndex
        = (runEvents initState (demoStart ++ [Event.toggle])).savedFiles.length
            + 1
    ∧ ∀ f ∈ (runEvents initState (demoStart ++ [Event.toggle])).savedFiles,
        f.seqStr = py03d f.seq ∧ (f.seq ≤ 999 → f.seqStr.length = 3) :=
  C8_sequence_numbers (runEvents initState (demoStart ++ [Event.toggle]))
    ⟨demoStart ++ [Event.toggle], rfl⟩

/-! Recording-loop run lemmas and the temporal claims C5 and C3. -/

theorem runBlocks_nil (s : RecState) : runBlocks s [] = s := rfl

theorem runBlocks_cons (s : RecState) (b : Block) (bs : List Block) :
    runBlocks s (b :: bs)
      = runBlocks (if s.running = true then step s b else s) bs := rfl

theorem runBlocks_append (s : RecState) (l1 l2 : List Block) :
    runBlocks s (l1 ++ l2) = runBlocks (runBlocks s l1) l2 := by
  simp [runBlocks, List.foldl_append]

/-- A block at or above the silence threshold can never finalize: it either
writes and clears the silence timer, or is ignored before the first
segment. -/
theorem step_nonsilent_keeps (s : RecState) (b : Block)
    (h : SILENCE_RMS ≤ b.level) :
    (step s b).savedFiles = s.savedFiles
    ∧ (step s b).songIndex = s.songIndex
    ∧ ((step s b).silenceStart = none
        ∨ (step s b).silenceStart = s.silenceStart) := by
  by_cases hl : START_RMS ≤ b.level
  · by_cases hr : s.recording = false
    · rw [step_loud_new s b hl hr]
      exact ⟨by simp, by simp, Or.inl (by simp)⟩
    · rw [step_loud_cont s b hl (by simpa using hr)]
      exact ⟨by simp, by simp, Or.inl (by simp)⟩
  · by_cases hst : s.hasStartedSong = false
    · rw [step_idle s b hl hst]
      exact ⟨rfl, rfl, Or.inr rfl⟩
    · replace hst : s.hasStartedSong = true := by simpa using hst
      rw [step_between s b hl hst (not_lt.mpr h)]
      exact ⟨by simp, by simp, Or.inl (by simp)⟩

/-- C5: as long as every block's RMS stays at or above `SILENCE_RMS`, no
finalize ever occurs — no file is saved, the sequence counter never moves,
and the silence timer never accumulates (it is either cleared or untouched
at every block), so an active segment never ends. -/
theorem C5_no_finalize_while_loud (bs : List Block) :
    ∀ s : RecState, (∀ b ∈ bs, SILENCE_RMS ≤ b.level) →
      (runBlocks s bs).savedFiles = s.savedFiles
      ∧ (runBlocks s bs).songIndex = s.songIndex
      ∧ ((runBlocks s bs).silenceStart = none
          ∨ (runBlocks s bs).silenceStart = s.silenceStart) := by
  induction bs with
  | nil => exact fun s _ => ⟨rfl, rfl, Or.inr rfl⟩
  | cons b rest ih =>
      intro s hall
      have hb := hall b (List.mem_cons_self b rest)
      have hrest : ∀ x ∈ rest, SILENCE_RMS ≤ x.level :=
        fun x hx => hall x (List.mem_cons_of_mem b hx)
      rw [runBlocks_cons]
      by_cases hr : s.running = true
      · rw [if_pos hr]
        obtain ⟨e1, e2, e3⟩ := step_nonsilent_keeps s b hb
        obtain ⟨f1, f2, f3⟩ := ih (step s b) hrest
        refine ⟨f1.trans e1, f2.trans e2, ?_⟩
        rcases f3 with f3 | f3
        · exact Or.inl f3
        · rw [f3]
          exact e3
      · rw [if_neg hr]
        exact ih s hrest

/-- Witness for C5: one in-between block (RMS 0.01) after `demoStart`. -/
theorem C5_no_finalize_while_loud_witness :
    (∀ b ∈ [(⟨mkRat 1 100, mkRat 1 1, true⟩ : Block)], SILENCE_RMS ≤ b.level) ∧
      ((runBlocks demoState [⟨mkRat 1 100, mkRat 1 1, true⟩]).savedFiles
          = demoState.savedFiles
      ∧ (runBlocks demoState [⟨mkRat 1 100, mkRat 1 1, true⟩]).songIndex
          = demoState.songIndex
      ∧ ((runBlocks demoState [⟨mkRat 1 100, mkRat 1 1, true⟩]).silenceStart = none
          ∨ (runBlocks demoState [⟨mkRat 1 100, mkRat 1 1, true⟩]).silenceStart
              = demoState.silenceStart)) :=
  ⟨by decide,
    C5_no_finalize_while_loud [⟨mkRat 1 100, mkRat 1 1, true⟩] demoState (by decide)⟩

/-- Quiet blocks before any segment has started leave the state untouched. -/
theorem runBlocks_idle (bs : List Block) :
    ∀ s : RecState, s.hasStartedSong = false →
      (∀ b ∈ bs, ¬ START_RMS ≤ b.level) → runBlocks s bs = s := by
  induction bs with
  | nil => exact fun s _ _ => rfl
  | cons b rest ih =>
      intro s hst hall
      rw [runBlocks_cons]
      by_cases hr : s.running = true
      · rw [if_pos hr, step_idle s b (hall b (List.mem_cons_self b rest)) hst]
        exact ih s hst fun x hx => hall x (List.mem_cons_of_mem b hx)
      · rw [if_neg hr]
        exact ih s hst fun x hx => hall x (List.mem_cons_of_mem b hx)

/-- Running a stretch of silent blocks that all lie inside the grace period
(timer started at `t0`): every block is written, the timer keeps its origin,
and nothing is finalized. -/
theorem runBlocks_silent_hold (mid : List Block) :
    ∀ (s : RecState) (t0 : ℚ) (n : ℕ),
      s.running = true → s.hasStartedSong = true →
      s.silenceStart = some t0 → s.tempWav = some n →
      s.tailBuffer.length ≤ TAIL_MAXLEN →
      (∀ b ∈ mid, b.level < SILENCE_RMS ∧ b.t - t0 < SILENCE_TIME) →
      (runBlocks s mid).running = true
      ∧ (runBlocks s mid).hasStartedSong = true
      ∧ (runBlocks s mid).silenceStart = some t0
      ∧ (runBlocks s mid).tempWav = some (n + mid.length * blockBytes)
      ∧ (runBlocks s mid).tailBuffer.length
          = min (s.tailBuffer.length + mid.length) TAIL_MAXLEN
      ∧ (runBlocks s mid).tailBuffer.length ≤ TAIL_MAXLEN
      ∧ (runBlocks s mid).savedFiles = s.savedFiles
      ∧ (runBlocks s mid).songIndex = s.songIndex := by
  induction mid with
  | nil =>
      intro s t0 n h1 h2 h3 h4 h5 _
      refine ⟨h1, h2, h3, ?_, ?_, h5, rfl, rfl⟩
      · rw [runBlocks_nil, h4]
        simp
      · rw [runBlocks_nil]
        simp only [List.length_nil, Nat.add_zero]
        omega
  | cons b rest ih =>
      intro s t0 n h1 h2 h3 h4 h5 hall
      obtain ⟨hbq, hbt⟩ := hall b (List.mem_cons_self b rest)
      rw [runBlocks_cons, if_pos h1,
        step_silent_hold s b t0 h2 hbq h3 (not_le.mpr hbt)]
      obtain ⟨g1, g2, g3, g4, g5, g6, g7, g8⟩ :=
        ih (writeBlock s) t0 (n + blockBytes) (by simp [h1]) (by simp [h2])
          (by simp [h3]) (by simp [h4])
          (by rw [writeBlock_tailBuffer, dequeAppend_length]; omega)
          (fun x hx => hall x (List.mem_cons_of_mem b hx))
      refine ⟨g1, g2, g3, ?_, ?_, g6, by rw [g7]; simp, by rw [g8]; simp⟩
      · rw [g4, List.length_cons]
        congr 1
        ring
      · rw [g5, writeBlock_tailBuffer, dequeAppend_length,
          List.length_cons]
        omega

/-- C3: once a segment is active with the silence timer unset, a stretch of
continuously silent blocks finalizes the segment exactly at the first block
whose arrival time is at least `SILENCE_TIME` past the first silent block —
not earlier (second conjunct: nothing saved before that block) and not
later (first and third conjuncts: after that block exactly one file exists
and the segment is closed, and trailing silent blocks change nothing).  The
captured length `n + (mid.length + 2) · blockBytes` of the saved file shows
every silent block up to and including the finalizing one was written. -/
theorem C3_finalize_at_first_expiry (s : RecState) (n : ℕ) (b0 bi : Block)
    (mid rest : List Block)
    (hrun : s.running = true) (hstart : s.hasStartedSong = true)
    (htemp : s.tempWav = some n) (hsil : s.silenceStart = none)
    (htail : s.tailBuffer.length ≤ TAIL_MAXLEN)
    (hb0 : b0.level < SILENCE_RMS)
    (hmid : ∀ b ∈ mid, b.level < SILENCE_RMS ∧ b.t - b0.t < SILENCE_TIME)
    (hbi : bi.level < SILENCE_RMS) (hbit : SILENCE_TIME ≤ bi.t - b0.t)
    (hrest : ∀ b ∈ rest, b.level < SILENCE_RMS) :
    (runBlocks s (b0 :: (mid ++ bi :: rest))).savedFiles
        = s.savedFiles
          ++ [trim_and_save
                (min (s.tailBuffer.length + (mid.length + 2)) TAIL_MAXLEN)
                (n + (mid.length + 2) * blockBytes) s.songIndex]
    ∧ (runBlocks s (b0 :: mid)).savedFiles = s.savedFiles
    ∧ (runBlocks s (b0 :: (mid ++ bi :: rest))).hasStartedSong = false := by
  have hstep0 :
      step s b0 = { writeBlock s with silenceStart := some b0.t } :=
    step_silent_first s b0 hstart hb0 hsil
  obtain ⟨g1, g2, g3, g4, g5, g6, g7, g8⟩ :=
    runBlocks_silent_hold mid { writeBlock s with silenceStart := some b0.t }
      b0.t (n + blockBytes) (by simp [hrun]) (by simp [hstart]) rfl
      (by simp [htemp])
      (by rw [show ({ writeBlock s with silenceStart := some b0.t } :
            RecState).tailBuffer = (writeBlock s).tailBuffer from rfl,
          writeBlock_tailBuffer, dequeAppend_length]; omega)
      hmid
  have hmidrun :
      runBlocks s (b0 :: mid)
        = runBlocks { writeBlock s with silenceStart := some b0.t } mid := by
    rw [runBlocks_cons, if_pos hrun, hstep0]
  have hstepi :
      step (runBlocks { writeBlock s with silenceStart := some b0.t } mid) bi
        = finalizeAndSave
            (writeBlock
              (runBlocks { writeBlock s with silenceStart := some b0.t } mid)) :=
    step_silent_expire _ bi b0.t g2 hbi g3 hbit
  have hwtemp :
      (writeBlock
          (runBlocks { writeBlock s with silenceStart := some b0.t } mid)).tempWav
        = some (n + (mid.length + 2) * blockBytes) := by
    rw [writeBlock_tempWav, g4]
    show some (n + blockBytes + mid.length * blockBytes + blockBytes) = _
    congr 1
    ring
  have hwtail :
      (writeBlock
          (runBlocks { writeBlock s with silenceStart := some b0.t } mid)).tailBuffer.length
        = min (s.tailBuffer.length + (mid.length + 2)) TAIL_MAXLEN := by
    rw [writeBlock_tailBuffer, dequeAppend_length, g5]
    have hs1 : ({ writeBlock s with silenceStart := some b0.t } :
        RecState).tailBuffer.length
        = min (s.tailBuffer.length + 1) TAIL_MAXLEN := by
      rw [show ({ writeBlock s with silenceStart := some b0.t } :
            RecState).tailBuffer = (writeBlock s).tailBuffer from rfl,
        writeBlock_tailBuffer, dequeAppend_length]
    rw [hs1]
    omega
  have hfull :
      runBlocks s (b0 :: (mid ++ bi :: rest))
        = finalizeAndSave
            (writeBlock
              (runBlocks { writeBlock s with silenceStart := some b0.t } mid)) := by
    rw [runBlocks_cons, if_pos hrun, hstep0, runBlocks_append, runBlocks_cons,
      if_pos g1, hstepi]
    apply runBlocks_idle
    · rw [finalizeAndSave_hasStartedSong]
    · exact fun x hx => not_start_of_lt_silence (hrest x hx)
  refine ⟨?_, ?_, ?_⟩
  · rw [hfull, finalizeAndSave_savedFiles _ _ hwtemp, hwtail]
    have hsv :
        (writeBlock
            (runBlocks { writeBlock s with silenceStart := some b0.t } mid)).savedFiles
          = s.savedFiles := by
      rw [writeBlock_savedFiles, g7]
      rfl
    have hsi :
        (writeBlock
            (runBlocks { writeBlock s with silenceStart := some b0.t } mid)).songIndex
          = s.songIndex := by
      rw [writeBlock_songIndex, g8]
      rfl
    rw [hsv, hsi]
  · rw [hmidrun, g7]
    rfl
  · rw [hfull, finalizeAndSave_hasStartedSong]

unseal Rat.sub in
/-- Witness for C3: after `demoStart`, silence at times 10 and 20, expiry at
time 30, one trailing silent block at time 31. -/
theorem C3_finalize_at_first_expiry_witness :
    (runBlocks demoState (c3b0 :: (c3mid ++ c3bi :: c3rest))).savedFiles
        = demoState.savedFiles
          ++ [trim_and_save
                (min (demoState.tailBuffer.length + (c3mid.length + 2))
                  TAIL_MAXLEN)
                (8192 + (c3mid.length + 2) * blockBytes) demoState.songIndex]
    ∧ (runBlocks demoState (c3b0 :: c3mid)).savedFiles = demoState.savedFiles
    ∧ (runBlocks demoState
          (c3b0 :: (c3mid ++ c3bi :: c3rest))).hasStartedSong = false :=
  C3_finalize_at_first_expiry demoState 8192 c3b0 c3bi c3mid c3rest
    (by decide) (by decide) (by decide) (by decide) (by decide) (by decide)
    (by decide) (by decide) (by decide) (by decide)

/-! Failure-path results for C9. -/

/-- Coherence: on a block whose write succeeds, the fallible loop body
agrees with the success-path semantics `step`. -/
theorem stepE_ok (s : RecState) (b : Block) (h : b.writeOk = true) :
    stepE s b = Except.ok (step s b) := by
  by_cases hl : START_RMS ≤ b.level
  · simp [stepE, step, writeBlockE, h, hl]
  · by_cases hst : s.hasStartedSong = false
    · simp [stepE, step, writeBlockE, h, hl, hst]
    · simp [stepE, step, writeBlockE, h, hl, hst]

/-- C9 counterexample: with a segment active (after `demoStart`), a failing
block write makes `record_loop` abort with the error: the state is *not*
reset to IDLE (`hasStartedSong` is still set in the error payload, which is
the unchanged pre-block state), the later healthy loud block is never
processed (the loop result is the error, not a continued session), and no
file was saved for the segment — contradicting the claim that the segment
is abandoned with the state reset to IDLE and the session kept listening. -/
theorem C9_counterexample :
    recordLoopE demoState
        [⟨mkRat 5 100, mkRat 1 1, false⟩, ⟨mkRat 5 100, mkRat 2 1, true⟩]
      = Except.error demoState
    ∧ demoState.hasStartedSong = true
    ∧ demoState.savedFiles = [] :=
  ⟨rfl, by decide, by decide⟩

/-- C9 as amended: if a block write fails while a segment is active, the
exception propagates — the recording loop terminates at once with the
failure, the remaining blocks are never processed, the per-segment state is
not reset (the error payload still has `hasStartedSong` and `running` set),
and no output file is produced for the failed segment (no corrupt file:
`savedFiles` is unchanged). -/
theorem C9_write_failure_aborts (s : RecState) (b : Block) (bs : List Block)
    (hrun : s.running = true) (hstart : s.hasStartedSong = true)
    (hfail : b.writeOk = false) :
    ∃ sf : RecState, recordLoopE s (b :: bs) = Except.error sf
      ∧ sf.savedFiles = s.savedFiles
      ∧ sf.hasStartedSong = true
      ∧ sf.running = true := by
  have hE : ∃ sf : RecState, stepE s b = Except.error sf
      ∧ sf.savedFiles = s.savedFiles ∧ sf.hasStartedSong = true
      ∧ sf.running = true := by
    by_cases hl : START_RMS ≤ b.level
    · by_cases hr : s.recording = false
      · refine ⟨startNewSong s b.t, ?_, by simp, by simp, by simp [hrun]⟩
        simp [stepE, hl, hr, writeBlockE, hfail]
      · refine ⟨s, ?_, rfl, hstart, hrun⟩
        simp [stepE, hl, hr, writeBlockE, hfail]
    · refine ⟨s, ?_, rfl, hstart, hrun⟩
      simp [stepE, hl, hstart, writeBlockE, hfail]
  obtain ⟨sf, hsf, h1, h2, h3⟩ := hE
  refine ⟨sf, ?_, h1, h2, h3⟩
  simp only [recordLoopE]
  rw [if_pos hrun, hsf]

/-- Witness for the amended C9: failing write on a loud block after
`demoStart`, with one more (never-processed) block behind it. -/
theorem C9_write_failure_aborts_witness :
    demoState.running = true ∧ demoState.hasStartedSong = true
    ∧ (⟨mkRat 5 100, mkRat 1 1, false⟩ : Block).writeOk = false
    ∧ ∃ sf : RecState,
        recordLoopE demoState
            [⟨mkRat 5 100, mkRat 1 1, false⟩, ⟨mkRat 5 100, mkRat 2 1, true⟩]
          = Except.error sf
        ∧ sf.savedFiles = demoState.savedFiles
        ∧ sf.hasStartedSong = true
        ∧ sf.running = true :=
  ⟨by decide, by decide, rfl,
    C9_write_failure_aborts demoState ⟨mkRat 5 100, mkRat 1 1, false⟩
      [⟨mkRat 5 100, mkRat 2 1, true⟩] (by decide) (by decide) rfl⟩

end SysAudioRec

